import Mathlib

/-!
Shallow embedding of the `@umituz/react-native-audio` package: the state
entities (`AudioRecording`, `AudioPlayback`), the instance-based coordinators
(`AudioRecordingService`, `AudioPlaybackService`), the static services, and
the pure formatting utilities.  Each definition is translated directly from
the TypeScript source; native (expo-av) calls are modelled by explicit
outcome parameters (a `Bool` success flag or an `Option`/`Except` result),
since the native module is an external collaborator.  Numbers that are JS
floats (volume, rate, positions, durations) are modelled as rationals;
millisecond counts fed to the pure formatters are modelled as naturals.
-/

namespace RNAudio

/-- `AudioRecordingState` from `AudioTypes.ts`. -/
inductive RecState
  | idle | preparing | recording | paused | stopping | stopped | error
  deriving DecidableEq, Repr

/-- `AudioPlaybackState` from `AudioTypes.ts`. -/
inductive PbState
  | idle | loading | ready | playing | paused | stopped | completed | error
  deriving DecidableEq, Repr

/-- `AudioFormat` from `AudioTypes.ts`. -/
inductive AudioFormat
  | aac | mp3 | wav | mpeg4
  deriving DecidableEq, Repr

/-- `AudioRecordingConfig` from `AudioTypes.ts`.  Only `format` is ever read
by the entity code (in `toMetadata`); the remaining fields (quality, channel,
bitRate, sampleRate, extension, maxDurationSeconds) are carried opaquely by
the session and never inspected by any modelled operation, so they are
omitted from the embedding. -/
structure RecConfig where
  format : AudioFormat
  deriving DecidableEq, Repr

/-- `RecordingStatus` from `AudioTypes.ts` as the coordinator stores it on a
poll tick: the only field ever written is `durationMillis`. -/
structure RecStatus where
  durationMillis : ℚ
  deriving DecidableEq, Repr

/-- The `AudioRecording` entity's mutable fields (`AudioRecording.ts`).
`err` models `_error : Error | null` (only the message is kept). -/
structure RecSession where
  state : RecState
  config : RecConfig
  uri : Option String
  duration : ℚ
  err : Option String
  lastStatus : Option RecStatus
  deriving DecidableEq, Repr

namespace RecSession

/-- The `AudioRecording` constructor. -/
def init (cfg : RecConfig) : RecSession :=
  { state := .idle, config := cfg, uri := none, duration := 0
    err := none, lastStatus := none }

def setState (r : RecSession) (s : RecState) : RecSession := { r with state := s }

def setUri (r : RecSession) (u : String) : RecSession := { r with uri := some u }

def setDuration (r : RecSession) (d : ℚ) : RecSession := { r with duration := d }

/-- `setError`: records the error AND forces the state to `ERROR`. -/
def setError (r : RecSession) (e : String) : RecSession :=
  { r with err := some e, state := .error }

def setStatus (r : RecSession) (s : RecStatus) : RecSession :=
  { r with lastStatus := some s }

/-- `reset()`: back to `IDLE`, clearing uri/duration/error/status. -/
def reset (r : RecSession) : RecSession :=
  { r with state := .idle, uri := none, duration := 0
           err := none, lastStatus := none }

def canRecord (r : RecSession) : Bool :=
  r.state == .idle || r.state == .stopped

def canPause (r : RecSession) : Bool := r.state == .recording

def canStop (r : RecSession) : Bool :=
  r.state == .recording || r.state == .paused

def canResume (r : RecSession) : Bool := r.state == .paused

end RecSession

/-- `RecordingResult` from `AudioTypes.ts`. -/
structure RecordingResult where
  uri : String
  duration : ℚ
  status : RecState
  deriving DecidableEq, Repr

/-- `AudioMetadata` from `AudioTypes.ts`; the wall-clock `createdAt` and
`modifiedAt` fields (fresh `Date` objects) carry no deterministic content and
are omitted. -/
structure AudioMetadata where
  uri : String
  duration : ℚ
  format : AudioFormat
  deriving DecidableEq, Repr

/-- `AudioRecording.toResult()`: throws `'No recording URI available'` when
`_uri` is null, otherwise returns `{uri, duration, status: _state}`.  The
method reads the entity and does not mutate it, which the embedding reflects
by returning only the result. -/
def RecSession.toResult (r : RecSession) : Except String RecordingResult :=
  match r.uri with
  | none => .error "No recording URI available"
  | some u => .ok { uri := u, duration := r.duration, status := r.state }

/-- `AudioRecording.toMetadata()`: same guard, returns
`{uri, duration, format: _config.format, ...}`. -/
def RecSession.toMetadata (r : RecSession) : Except String AudioMetadata :=
  match r.uri with
  | none => .error "No recording URI available"
  | some u => .ok { uri := u, duration := r.duration, format := r.config.format }

/-! ## Recording coordinator (`AudioRecordingService`, instance-based)

The coordinator owns at most one native recorder handle
(`recordingInstance : Audio.Recording | null`).  Handles are identified by
`Nat` ids drawn from a counter; each operation additionally reports the
sequence of native lifecycle primitives it invoked (`NativeEvent`s), so that
handle-teardown ordering is visible.  `everRec` is a history (ghost) field:
it is set whenever the coordinator executes `setState(RECORDING)` and cleared
whenever the session is `reset()`; it is never read by any operation and so
does not influence behaviour. -/

/-- Native handle lifecycle events: creation of a recorder / sound handle and
invocation of its teardown primitive (`stopAndUnloadAsync` / `unloadAsync`). -/
inductive NativeEvent
  | createRec (id : Nat)
  | teardownRec (id : Nat)
  | createSound (id : Nat)
  | teardownSound (id : Nat)
  deriving DecidableEq, Repr

structure RecCoordinator where
  /-- `recordingInstance` (by handle id); `none` = null. -/
  instanceId : Option Nat
  /-- the owned `AudioRecording` entity (`this.recording`). -/
  session : RecSession
  /-- whether the status-poll interval is running. -/
  polling : Bool
  /-- id supply for freshly created handles. -/
  nextId : Nat
  /-- ghost history flag: `setState(RECORDING)` has run since the last reset. -/
  everRec : Bool
  deriving DecidableEq, Repr

/-- A fresh coordinator wrapping a fresh entity. -/
def recInit (cfg : RecConfig) : RecCoordinator :=
  { instanceId := none, session := .init cfg, polling := false
    nextId := 0, everRec := false }

/-- `prepare(config)`: sets PREPARING, assigns a brand-new recorder over any
prior reference (without tearing the prior one down), then awaits the native
prepare call: on success back to IDLE, on failure `setError` (→ ERROR) and
rethrow.  `ok` is the native `prepareToRecordAsync` outcome; a create event is
emitted when the native recorder is successfully prepared. -/
def recPrepare (c : RecCoordinator) (ok : Bool) :
    RecCoordinator × Except String Unit × List NativeEvent :=
  let rec1 := c.session.setState .preparing
  let id := c.nextId
  if ok then
    ({ c with session := rec1.setState .idle, instanceId := some id, nextId := id + 1 },
     .ok (), [.createRec id])
  else
    ({ c with session := rec1.setError "Failed to prepare recording",
              instanceId := some id, nextId := id + 1 },
     .error "Failed to prepare recording", [])

/-- `start()`: throws if no instance; otherwise sets RECORDING, awaits native
start and one status read (`ok` covers both native calls, whose failure paths
are observationally identical), seeds duration and — when the status carries a
truthy uri — the uri, starts the poll loop, and returns the uri (`""` when the
native layer reports none).  Any failure is captured via `setError`. -/
def recStart (c : RecCoordinator) (ok : Bool) (statusUri : Option String)
    (statusDur : ℚ) : RecCoordinator × Except String String × List NativeEvent :=
  match c.instanceId with
  | none =>
      ({ c with session := c.session.setError "Recording not prepared. Call prepare() first." },
       .error "Recording not prepared. Call prepare() first.", [])
  | some _ =>
      let rec1 := c.session.setState .recording
      if ok then
        let rec2 := rec1.setDuration statusDur
        let rec3 := match statusUri with
          | some u => rec2.setUri u
          | none => rec2
        ({ c with session := rec3, polling := true, everRec := true },
         .ok (statusUri.getD ""), [])
      else
        ({ c with session := rec1.setError "Failed to start recording", everRec := true },
         .error "Failed to start recording", [])

/-- `pause()`: the guard (`instance` present and `canPause`) throws inside the
`try`, so a guard failure is caught by the same `catch` as a native failure —
both run `setError` (state → ERROR) and rethrow.  On the happy path the state
is set to PAUSED before the native pause call. -/
def recPause (c : RecCoordinator) (ok : Bool) :
    RecCoordinator × Except String Unit × List NativeEvent :=
  if c.instanceId.isNone || !c.session.canPause then
    ({ c with session := c.session.setError "Cannot pause recording" },
     .error "Cannot pause recording", [])
  else
    let rec1 := c.session.setState .paused
    if ok then ({ c with session := rec1 }, .ok (), [])
    else
      ({ c with session := rec1.setError "Failed to pause recording" },
       .error "Failed to pause recording", [])

/-- `stop()`: guard (`instance` and `canStop`) throws into the catch like
`pause`; otherwise STOPPING, native `stopAndUnloadAsync` (a teardown event is
emitted for the attempt), then uri/duration capture, STOPPED and the handle
reference is cleared.  On native failure the reference is kept and `setError`
runs. -/
def recStop (c : RecCoordinator) (ok : Bool) (statusUri : Option String)
    (statusDur : ℚ) : RecCoordinator × Except String Unit × List NativeEvent :=
  match c.instanceId with
  | none =>
      ({ c with session := c.session.setError "Cannot stop recording" },
       .error "Cannot stop recording", [])
  | some h =>
      if !c.session.canStop then
        ({ c with session := c.session.setError "Cannot stop recording" },
         .error "Cannot stop recording", [])
      else
        let rec1 := c.session.setState .stopping
        if ok then
          let rec2 := match statusUri with
            | some u => rec1.setUri u
            | none => rec1
          let rec3 := (rec2.setDuration statusDur).setState .stopped
          ({ c with session := rec3, instanceId := none }, .ok (), [.teardownRec h])
        else
          ({ c with session := rec1.setError "Failed to stop recording" },
           .error "Failed to stop recording", [.teardownRec h])

/-- `cancel()`: best-effort `stopAndUnloadAsync` when a handle exists, then
`reset()`.  A native failure skips the reset: `setError` runs and the error is
rethrown (and the handle reference survives). -/
def recCancel (c : RecCoordinator) (ok : Bool) :
    RecCoordinator × Except String Unit × List NativeEvent :=
  match c.instanceId with
  | none => ({ c with session := c.session.reset, everRec := false }, .ok (), [])
  | some h =>
      if ok then
        ({ c with instanceId := none, session := c.session.reset, everRec := false },
         .ok (), [.teardownRec h])
      else
        ({ c with session := c.session.setError "Failed to cancel recording" },
         .error "Failed to cancel recording", [.teardownRec h])

/-- `dispose()`: stop polling, drop the handle reference without any native
call, `reset()` the session.  Never throws. -/
def recDispose (c : RecCoordinator) : RecCoordinator :=
  { c with polling := false, instanceId := none, session := c.session.reset
           everRec := false }

/-- One tick of the recording status-poll interval: with no handle the
interval clears itself; otherwise a native status read (`ok`) writes
`lastStatus`/duration into the session (`durationMillis || 0` is the `dur`
argument) and the loop stops once `isRecording` is false; a thrown status read
silently stops the loop. -/
def recPollTick (c : RecCoordinator) (ok : Bool) (dur : ℚ) (isRec : Bool) :
    RecCoordinator :=
  if !c.polling then c
  else
    match c.instanceId with
    | none => { c with polling := false }
    | some _ =>
        if ok then
          let rec1 := (c.session.setStatus ⟨dur⟩).setDuration dur
          { c with session := rec1, polling := isRec }
        else { c with polling := false }

/-- Coordinator operations with their native-call outcomes, for quantifying
over arbitrary call sequences. -/
inductive RecOp
  | prepare (ok : Bool)
  | start (ok : Bool) (statusUri : Option String) (statusDur : ℚ)
  | pause (ok : Bool)
  | stop (ok : Bool) (statusUri : Option String) (statusDur : ℚ)
  | cancel (ok : Bool)
  | dispose
  | pollTick (ok : Bool) (dur : ℚ) (isRec : Bool)
  deriving DecidableEq, Repr

def recStep (c : RecCoordinator) : RecOp → RecCoordinator
  | .prepare ok => (recPrepare c ok).1
  | .start ok u d => (recStart c ok u d).1
  | .pause ok => (recPause c ok).1
  | .stop ok u d => (recStop c ok u d).1
  | .cancel ok => (recCancel c ok).1
  | .dispose => recDispose c
  | .pollTick ok d isRec => recPollTick c ok d isRec

def recRun (c : RecCoordinator) (ops : List RecOp) : RecCoordinator :=
  ops.foldl recStep c

/-! ## Playback entity (`AudioPlayback`) -/

/-- `AudioPlaybackOptions` from `AudioTypes.ts`. -/
structure PbOptions where
  shouldPlay : Bool
  volume : ℚ
  isLooping : Bool
  isMuted : Bool
  playbackRate : ℚ
  progressUpdateIntervalMillis : ℚ
  positionUpdateIntervalMillis : ℚ
  deriving DecidableEq, Repr

/-- `DEFAULT_PLAYBACK_OPTIONS` from `AudioConstants.ts`. -/
def defaultPbOptions : PbOptions :=
  { shouldPlay := false, volume := 1, isLooping := false, isMuted := false
    playbackRate := 1, progressUpdateIntervalMillis := 500
    positionUpdateIntervalMillis := 500 }

/-- `PlaybackStatus` from `AudioTypes.ts` (the session-side status shape). -/
structure PbStatus where
  didJustFinish : Bool
  durationMillis : ℚ
  isBuffering : Bool
  isLoaded : Bool
  isLooping : Bool
  isPlaying : Bool
  isMuted : Bool
  positionMillis : ℚ
  playbackRate : ℚ
  volume : ℚ
  deriving DecidableEq, Repr

/-- The native `Audio.Sound` status as the instance playback coordinator reads
it (`getStatusAsync` result).  `durationMillis`/`positionMillis` are optional
in the native shape and the code guards them with `|| 0`, modelled by
`Option ℚ` plus `getD 0`. -/
structure SoundStatus where
  isLoaded : Bool
  didJustFinish : Bool
  durationMillis : Option ℚ
  positionMillis : Option ℚ
  isBuffering : Bool
  isLooping : Bool
  isPlaying : Bool
  isMuted : Bool
  rate : ℚ
  volume : ℚ
  deriving DecidableEq, Repr

/-- The `AudioPlayback` entity's mutable fields (`AudioPlayback.ts`). -/
structure PbSession where
  state : PbState
  uri : Option String
  options : PbOptions
  duration : ℚ
  position : ℚ
  err : Option String
  lastStatus : Option PbStatus
  deriving DecidableEq, Repr

namespace PbSession

/-- The `AudioPlayback` constructor. -/
def init (opts : PbOptions) : PbSession :=
  { state := .idle, uri := none, options := opts, duration := 0
    position := 0, err := none, lastStatus := none }

def setState (p : PbSession) (s : PbState) : PbSession := { p with state := s }

def setUri (p : PbSession) (u : String) : PbSession := { p with uri := some u }

def setDuration (p : PbSession) (d : ℚ) : PbSession := { p with duration := d }

/-- `setPosition`: `this._position = Math.max(0, Math.min(position, this._duration))`. -/
def setPosition (p : PbSession) (pos : ℚ) : PbSession :=
  { p with position := max 0 (min pos p.duration) }

/-- `setVolume`: stores the value into `_options.volume` as given (no clamp). -/
def setVolume (p : PbSession) (v : ℚ) : PbSession :=
  { p with options := { p.options with volume := v } }

/-- `setPlaybackRate`: stores the value as given (no clamp). -/
def setPlaybackRate (p : PbSession) (r : ℚ) : PbSession :=
  { p with options := { p.options with playbackRate := r } }

def setLooping (p : PbSession) (b : Bool) : PbSession :=
  { p with options := { p.options with isLooping := b } }

def setMuted (p : PbSession) (b : Bool) : PbSession :=
  { p with options := { p.options with isMuted := b } }

/-- `setError`: records the error AND forces the state to `ERROR`. -/
def setError (p : PbSession) (e : String) : PbSession :=
  { p with err := some e, state := .error }

def setStatus (p : PbSession) (s : PbStatus) : PbSession :=
  { p with lastStatus := some s }

/-- `reset()`: IDLE, clearing uri/duration/position/error/status (options kept). -/
def reset (p : PbSession) : PbSession :=
  { p with state := .idle, uri := none, duration := 0, position := 0
           err := none, lastStatus := none }

/-- `isLooping` getter reads `_options.isLooping`. -/
def isLooping (p : PbSession) : Bool := p.options.isLooping

def canPlay (p : PbSession) : Bool :=
  p.uri.isSome &&
    (p.state == .idle || p.state == .ready || p.state == .paused ||
     p.state == .stopped || p.state == .completed)

def canPause (p : PbSession) : Bool := p.state == .playing

def canStop (p : PbSession) : Bool :=
  p.state == .playing || p.state == .paused || p.state == .loading

def canSeek (p : PbSession) : Bool :=
  p.uri.isSome &&
    (p.state == .ready || p.state == .playing || p.state == .paused ||
     p.state == .stopped || p.state == .completed)

/-- `progress` getter: 0 when `_duration === 0`, else `_position / _duration`. -/
def progress (p : PbSession) : ℚ :=
  if p.duration = 0 then 0 else p.position / p.duration

end PbSession

/-! ## Playback coordinator (`AudioPlaybackService`, instance-based) -/

structure PbCoordinator where
  /-- `soundInstance` (by handle id); `none` = null. -/
  soundId : Option Nat
  /-- the owned `AudioPlayback` entity (`this.playback`). -/
  session : PbSession
  /-- `statusUpdateInterval` being non-null. -/
  polling : Bool
  /-- id supply for freshly created handles. -/
  nextId : Nat
  deriving DecidableEq, Repr

def pbInit (opts : PbOptions) : PbCoordinator :=
  { soundId := none, session := .init opts, polling := false, nextId := 0 }

/-- `unload()`: when a handle exists, native `unloadAsync` then drop the
reference; in every successful path the poll timer is stopped and the session
`reset()`.  A native unload failure leaves the reference and the timer in
place, runs `setError`, and rethrows. -/
def pbUnload (c : PbCoordinator) (ok : Bool) :
    PbCoordinator × Except String Unit × List NativeEvent :=
  match c.soundId with
  | none =>
      ({ c with polling := false, session := c.session.reset }, .ok (), [])
  | some h =>
      if ok then
        ({ c with soundId := none, polling := false, session := c.session.reset },
         .ok (), [.teardownSound h])
      else
        ({ c with session := c.session.setError "Failed to unload audio" },
         .error "Failed to unload audio", [.teardownSound h])

/-- `load(uri)`: sets LOADING; if a handle is already held it is first torn
down via `unload()`; then `Audio.Sound.createAsync` with the session's current
options (`createOk`), the uri is recorded, the initial native status is read
(`initialStatus`, `none` when the read throws), duration/position/READY are
seeded when that status `isLoaded`, and the poll loop starts.  Every thrown
step lands in the catch: `setError` and rethrow. -/
def pbLoad (c : PbCoordinator) (uri : String) (unloadOk createOk : Bool)
    (initialStatus : Option SoundStatus) :
    PbCoordinator × Except String Unit × List NativeEvent :=
  let c1 := { c with session := c.session.setState .loading }
  let afterUnload : PbCoordinator × Except String Unit × List NativeEvent :=
    match c1.soundId with
    | some _ => pbUnload c1 unloadOk
    | none => (c1, .ok (), [])
  match afterUnload with
  | (c2, .error e, evs) =>
      ({ c2 with session := c2.session.setError e }, .error e, evs)
  | (c2, .ok _, evs) =>
      if createOk then
        let id := c2.nextId
        let c3 := { c2 with soundId := some id, nextId := id + 1
                            session := c2.session.setUri uri }
        match initialStatus with
        | none =>
            ({ c3 with session := c3.session.setError "Failed to load audio" },
             .error "Failed to load audio", evs ++ [.createSound id])
        | some st =>
            let s1 :=
              if st.isLoaded then
                (((c3.session.setDuration (st.durationMillis.getD 0)).setPosition
                    (st.positionMillis.getD 0)).setState .ready)
              else c3.session
            ({ c3 with session := s1, polling := true }, .ok (),
             evs ++ [.createSound id])
      else
        ({ c2 with session := c2.session.setError "Failed to load audio" },
         .error "Failed to load audio", evs)

/-- `play()`: guard (`soundInstance` and `canPlay`) throws into the catch;
otherwise PLAYING is set before the native play call, whose failure runs
`setError`. -/
def pbPlay (c : PbCoordinator) (ok : Bool) :
    PbCoordinator × Except String Unit :=
  if c.soundId.isNone || !c.session.canPlay then
    ({ c with session := c.session.setError "Cannot play audio" },
     .error "Cannot play audio")
  else
    let s1 := c.session.setState .playing
    if ok then ({ c with session := s1 }, .ok ())
    else
      ({ c with session := s1.setError "Failed to play audio" },
       .error "Failed to play audio")

/-- `pause()`: same shape with `canPause` and PAUSED. -/
def pbPause (c : PbCoordinator) (ok : Bool) :
    PbCoordinator × Except String Unit :=
  if c.soundId.isNone || !c.session.canPause then
    ({ c with session := c.session.setError "Cannot pause audio" },
     .error "Cannot pause audio")
  else
    let s1 := c.session.setState .paused
    if ok then ({ c with session := s1 }, .ok ())
    else
      ({ c with session := s1.setError "Failed to pause audio" },
       .error "Failed to pause audio")

/-- `stop()`: guard `canStop`; STOPPED before native stop; on success the
position is reset via `setPosition(0)`. -/
def pbStop (c : PbCoordinator) (ok : Bool) :
    PbCoordinator × Except String Unit :=
  if c.soundId.isNone || !c.session.canStop then
    ({ c with session := c.session.setError "Cannot stop audio" },
     .error "Cannot stop audio")
  else
    let s1 := c.session.setState .stopped
    if ok then ({ c with session := s1.setPosition 0 }, .ok ())
    else
      ({ c with session := s1.setError "Failed to stop audio" },
       .error "Failed to stop audio")

/-- `seek(position)`: guard `canSeek`; native seek then `setPosition`
(which clamps). -/
def pbSeek (c : PbCoordinator) (pos : ℚ) (ok : Bool) :
    PbCoordinator × Except String Unit :=
  if c.soundId.isNone || !c.session.canSeek then
    ({ c with session := c.session.setError "Cannot seek audio" },
     .error "Cannot seek audio")
  else if ok then ({ c with session := c.session.setPosition pos }, .ok ())
  else
    ({ c with session := c.session.setError "Failed to seek audio" },
     .error "Failed to seek audio")

/-- `setVolume(volume)`: requires a loaded handle; native setter then the
entity mirror (unclamped). -/
def pbSetVolume (c : PbCoordinator) (v : ℚ) (ok : Bool) :
    PbCoordinator × Except String Unit :=
  if c.soundId.isNone then
    ({ c with session := c.session.setError "No sound loaded" },
     .error "No sound loaded")
  else if ok then ({ c with session := c.session.setVolume v }, .ok ())
  else
    ({ c with session := c.session.setError "Failed to set volume" },
     .error "Failed to set volume")

/-- `setPlaybackRate(rate, shouldCorrectPitch)`: requires a loaded handle;
mirrors the rate unclamped.  The pitch flag only parameterises the native
call. -/
def pbSetRate (c : PbCoordinator) (r : ℚ) (_pitch : Bool) (ok : Bool) :
    PbCoordinator × Except String Unit :=
  if c.soundId.isNone then
    ({ c with session := c.session.setError "No sound loaded" },
     .error "No sound loaded")
  else if ok then ({ c with session := c.session.setPlaybackRate r }, .ok ())
  else
    ({ c with session := c.session.setError "Failed to set playback rate" },
     .error "Failed to set playback rate")

/-- `setLooping(isLooping)`. -/
def pbSetLooping (c : PbCoordinator) (b : Bool) (ok : Bool) :
    PbCoordinator × Except String Unit :=
  if c.soundId.isNone then
    ({ c with session := c.session.setError "No sound loaded" },
     .error "No sound loaded")
  else if ok then ({ c with session := c.session.setLooping b }, .ok ())
  else
    ({ c with session := c.session.setError "Failed to set looping" },
     .error "Failed to set looping")

/-- `setMuted(isMuted)`. -/
def pbSetMuted (c : PbCoordinator) (b : Bool) (ok : Bool) :
    PbCoordinator × Except String Unit :=
  if c.soundId.isNone then
    ({ c with session := c.session.setError "No sound loaded" },
     .error "No sound loaded")
  else if ok then ({ c with session := c.session.setMuted b }, .ok ())
  else
    ({ c with session := c.session.setError "Failed to set muted" },
     .error "Failed to set muted")

/-- `dispose()`: stop polling, drop the handle reference without an unload
call, reset the session.  Never throws. -/
def pbDispose (c : PbCoordinator) : PbCoordinator :=
  { c with polling := false, soundId := none, session := c.session.reset }

/-- One tick of the playback status-poll interval.  `statusRes = none`
models a thrown `getStatusAsync` (the catch silently stops the loop).  A
not-loaded status stops the loop; otherwise the translated `PlaybackStatus`
is written into the session together with duration/position, and
`didJustFinish && !playback.isLooping` drives COMPLETED plus loop stop. -/
def pbPollTick (c : PbCoordinator) (statusRes : Option SoundStatus) :
    PbCoordinator :=
  if !c.polling then c
  else
    match c.soundId with
    | none => { c with polling := false }
    | some _ =>
        match statusRes with
        | none => { c with polling := false }
        | some st =>
            if !st.isLoaded then { c with polling := false }
            else
              let translated : PbStatus :=
                { didJustFinish := st.didJustFinish
                  durationMillis := st.durationMillis.getD 0
                  isBuffering := st.isBuffering
                  isLoaded := st.isLoaded
                  isLooping := st.isLooping
                  isPlaying := st.isPlaying
                  isMuted := st.isMuted
                  positionMillis := st.positionMillis.getD 0
                  playbackRate := st.rate
                  volume := st.volume }
              let s1 := ((c.session.setStatus translated).setDuration
                  (st.durationMillis.getD 0)).setPosition (st.positionMillis.getD 0)
              if st.didJustFinish && !s1.isLooping then
                { c with session := s1.setState .completed, polling := false }
              else { c with session := s1 }

/-- Playback coordinator operations with their native outcomes. -/
inductive PbOp
  | load (uri : String) (unloadOk createOk : Bool) (initialStatus : Option SoundStatus)
  | play (ok : Bool)
  | pause (ok : Bool)
  | stop (ok : Bool)
  | seek (pos : ℚ) (ok : Bool)
  | setVolume (v : ℚ) (ok : Bool)
  | setRate (r : ℚ) (pitch : Bool) (ok : Bool)
  | setLooping (b : Bool) (ok : Bool)
  | setMuted (b : Bool) (ok : Bool)
  | unload (ok : Bool)
  | dispose
  | pollTick (statusRes : Option SoundStatus)
  deriving DecidableEq, Repr

def pbStep (c : PbCoordinator) : PbOp → PbCoordinator
  | .load uri u k st => (pbLoad c uri u k st).1
  | .play ok => (pbPlay c ok).1
  | .pause ok => (pbPause c ok).1
  | .stop ok => (pbStop c ok).1
  | .seek pos ok => (pbSeek c pos ok).1
  | .setVolume v ok => (pbSetVolume c v ok).1
  | .setRate r p ok => (pbSetRate c r p ok).1
  | .setLooping b ok => (pbSetLooping c b ok).1
  | .setMuted b ok => (pbSetMuted c b ok).1
  | .unload ok => (pbUnload c ok).1
  | .dispose => pbDispose c
  | .pollTick st => pbPollTick c st

def pbRun (c : PbCoordinator) (ops : List PbOp) : PbCoordinator :=
  ops.foldl pbStep c

/-! ## Static services (module-level singletons)

`AudioPlaybackService.getStatus` (static, `AudioPlaybackService.ts`) and
`AudioRecordingService.getPermissionStatus` (static) are passive queries: the
whole body is wrapped in try/catch and the catch returns a safe default.  The
native call result is passed in as an `Except` value (`.error` = the native
promise rejected). -/

/-- `PlaybackState` from `domain/entities/Audio.ts` (static-service shape). -/
structure StaticPlaybackState where
  isLoaded : Bool
  isPlaying : Bool
  isBuffering : Bool
  isMuted : Bool
  volume : ℚ
  rate : ℚ
  shouldPlay : Bool
  positionMillis : ℚ
  durationMillis : ℚ
  didJustFinish : Bool
  err : Option String
  deriving DecidableEq, Repr

/-- The native sound status as the static service reads it (includes
`shouldPlay` and, when unloaded, an `error` field). -/
structure StaticSoundStatus where
  isLoaded : Bool
  isPlaying : Bool
  isBuffering : Bool
  isMuted : Bool
  volume : ℚ
  rate : ℚ
  shouldPlay : Bool
  positionMillis : ℚ
  durationMillis : Option ℚ
  didJustFinish : Bool
  err : Option String
  deriving DecidableEq, Repr

/-- `AudioPlaybackService.mapStatusToState` (static): a fixed record for a
not-loaded status, otherwise a field-by-field translation with
`durationMillis || 0`. -/
def mapStatusToState (st : StaticSoundStatus) : StaticPlaybackState :=
  if !st.isLoaded then
    { isLoaded := false, isPlaying := false, isBuffering := false
      isMuted := false, volume := 0, rate := 1, shouldPlay := false
      positionMillis := 0, durationMillis := 0, didJustFinish := false
      err := st.err }
  else
    { isLoaded := true, isPlaying := st.isPlaying, isBuffering := st.isBuffering
      isMuted := st.isMuted, volume := st.volume, rate := st.rate
      shouldPlay := st.shouldPlay, positionMillis := st.positionMillis
      durationMillis := st.durationMillis.getD 0
      didJustFinish := st.didJustFinish, err := none }

/-- Static `AudioPlaybackService.getStatus`: null without a loaded sound,
the mapped state on a successful native status read, and null (never a
thrown error) when the native call rejects. -/
def staticGetStatus (sound : Option Nat)
    (res : Except String StaticSoundStatus) : Option StaticPlaybackState :=
  match sound with
  | none => none
  | some _ =>
      match res with
      | .ok st => some (mapStatusToState st)
      | .error _ => none

/-- `AudioPermission` from `domain/entities/Audio.ts`. -/
inductive AudioPermission
  | granted | denied | undetermined
  deriving DecidableEq, Repr

/-- Static `AudioRecordingService.mapPermissionStatus`. -/
def mapPermissionStatus (status : String) : AudioPermission :=
  if status = "granted" then .granted
  else if status = "denied" then .denied
  else .undetermined

/-- Static `AudioRecordingService.getPermissionStatus`: maps the native
permission string, and returns `denied` (never a thrown error) when the
native call rejects. -/
def staticGetPermissionStatus (res : Except String String) : AudioPermission :=
  match res with
  | .ok status => mapPermissionStatus status
  | .error _ => .denied

/-! ## Pure duration formatters (`audio.utils.ts`)

Millisecond counts are modelled as naturals: the formatters are only applied
to durations, and JS `Math.floor(x / k)` and `x % k` agree with `Nat`
division and remainder on non-negative integers. -/

/-- `.toString().padStart(2, '0')` for a target length of 2. -/
def padStart2 (s : String) : String :=
  if s.length ≥ 2 then s
  else if s.length = 1 then "0" ++ s
  else "00" ++ s

/-- `formatDuration` (MM:SS). -/
def formatDuration (milliseconds : Nat) : String :=
  let totalSeconds := milliseconds / 1000
  let minutes := totalSeconds / 60
  let seconds := totalSeconds % 60
  padStart2 (toString minutes) ++ ":" ++ padStart2 (toString seconds)

/-- `formatDurationLong` (HH:MM:SS when at least one full hour, else MM:SS). -/
def formatDurationLong (milliseconds : Nat) : String :=
  let totalSeconds := milliseconds / 1000
  let hours := totalSeconds / 3600
  let minutes := (totalSeconds % 3600) / 60
  let seconds := totalSeconds % 60
  if hours > 0 then
    padStart2 (toString hours) ++ ":" ++ padStart2 (toString minutes) ++ ":" ++
      padStart2 (toString seconds)
  else
    padStart2 (toString minutes) ++ ":" ++ padStart2 (toString seconds)

/-! ## Concrete instances used below to evaluate the model on closed inputs -/

def demoCfg : RecConfig := ⟨.aac⟩

/-- The coordinator reached from `recInit demoCfg` by one successful
`prepare()`: handle 0 held, session Idle. -/
def recIdleHeld : RecCoordinator :=
  { instanceId := some 0, session := .init demoCfg, polling := false
    nextId := 1, everRec := false }

/-- A coordinator mid-recording: handle held, session state Recording. -/
def recRecordingHeld : RecCoordinator :=
  { instanceId := some 0, session := (RecSession.init demoCfg).setState .recording
    polling := true, nextId := 1, everRec := true }

/-- prepare → start (uri reported) → native pause failure. -/
def c2ops : List RecOp :=
  [.prepare true, .start true (some "file:///rec.m4a") 0, .pause false]

/-- prepare → start (uri reported). -/
def c2okOps : List RecOp := [.prepare true, .start true (some "file:///rec.m4a") 0]

/-- A stopped recording session holding a uri. -/
def demoStoppedRec : RecSession :=
  (((RecSession.init demoCfg).setUri "file:///rec.m4a").setDuration 125).setState .stopped

/-- A playback session with a 10000 ms duration. -/
def demoPb10k : PbSession :=
  { PbSession.init defaultPbOptions with duration := 10000 }

/-- A playback session at 5/10 ms. -/
def demoPbHalf : PbSession :=
  { PbSession.init defaultPbOptions with duration := 10, position := 5 }

/-- A playback coordinator holding sound handle 0, poll loop running. -/
def pbHeld : PbCoordinator :=
  { soundId := some 0, session := (PbSession.init defaultPbOptions).setUri "file:///a.mp3"
    polling := true, nextId := 1 }

/-- A loaded, finished, non-looping native status. -/
def demoFinishedStatus : SoundStatus :=
  { isLoaded := true, didJustFinish := true, durationMillis := some 10000
    positionMillis := some 10000, isBuffering := false, isLooping := false
    isPlaying := false, isMuted := false, rate := 1, volume := 1 }

/-- A plain loaded native status. -/
def demoLoadedStatus : SoundStatus :=
  { isLoaded := true, didJustFinish := false, durationMillis := some 10000
    positionMillis := some 0, isBuffering := false, isLooping := false
    isPlaying := false, isMuted := false, rate := 1, volume := 1 }

/-- load then an out-of-range `setVolume(2)`. -/
def c5ops : List PbOp :=
  [.load "file:///a.mp3" true true (some demoLoadedStatus), .setVolume 2 true]

/-- Argument ranges of the option-mutating playback operations: the documented
volume range [0,1] and rate range [0.5,2.0] for the values being stored. -/
def PbOp.argsOk : PbOp → Prop
  | .setVolume v _ => 0 ≤ v ∧ v ≤ 1
  | .setRate r _ _ => 1/2 ≤ r ∧ r ≤ 2
  | _ => True

instance : DecidablePred PbOp.argsOk := by
  intro op
  cases op <;> simp only [PbOp.argsOk] <;> infer_instance

/-- The documented option ranges: volume in [0,1], playbackRate in [0.5,2.0]. -/
def optionsInRange (o : PbOptions) : Prop :=
  0 ≤ o.volume ∧ o.volume ≤ 1 ∧ 1/2 ≤ o.playbackRate ∧ o.playbackRate ≤ 2

instance (o : PbOptions) : Decidable (optionsInRange o) := by
  unfold optionsInRange; infer_instance

/-- The session invariant behind claim C2, as an inductive invariant of the
recording coordinator: either the session has been through
`setState(RECORDING)` since its last reset (ghost flag `everRec`), or it still
has a null uri and sits in one of the states reachable without recording
(Idle, Preparing, Error). -/
def RecCoordinator.inv (c : RecCoordinator) : Prop :=
  c.everRec = true ∨
    (c.session.uri = none ∧
      (c.session.state = .idle ∨ c.session.state = .preparing ∨
       c.session.state = .error))

/-! ## Helper lemmas -/

@[simp] theorem PbSession.options_setState (p : PbSession) (s : PbState) :
    (p.setState s).options = p.options := rfl

@[simp] theorem PbSession.options_setUri (p : PbSession) (u : String) :
    (p.setUri u).options = p.options := rfl

@[simp] theorem PbSession.options_setDuration (p : PbSession) (d : ℚ) :
    (p.setDuration d).options = p.options := rfl

@[simp] theorem PbSession.options_setPosition (p : PbSession) (pos : ℚ) :
    (p.setPosition pos).options = p.options := rfl

@[simp] theorem PbSession.options_setError (p : PbSession) (e : String) :
    (p.setError e).options = p.options := rfl

@[simp] theorem PbSession.options_setStatus (p : PbSession) (s : PbStatus) :
    (p.setStatus s).options = p.options := rfl

@[simp] theorem PbSession.options_reset (p : PbSession) :
    p.reset.options = p.options := rfl

@[simp] theorem PbSession.volume_setVolume (p : PbSession) (v : ℚ) :
    (p.setVolume v).options.volume = v := rfl

@[simp] theorem PbSession.rate_setVolume (p : PbSession) (v : ℚ) :
    (p.setVolume v).options.playbackRate = p.options.playbackRate := rfl

@[simp] theorem PbSession.volume_setPlaybackRate (p : PbSession) (r : ℚ) :
    (p.setPlaybackRate r).options.volume = p.options.volume := rfl

@[simp] theorem PbSession.rate_setPlaybackRate (p : PbSession) (r : ℚ) :
    (p.setPlaybackRate r).options.playbackRate = r := rfl

@[simp] theorem PbSession.volume_setLooping (p : PbSession) (b : Bool) :
    (p.setLooping b).options.volume = p.options.volume := rfl

@[simp] theorem PbSession.rate_setLooping (p : PbSession) (b : Bool) :
    (p.setLooping b).options.playbackRate = p.options.playbackRate := rfl

@[simp] theorem PbSession.volume_setMuted (p : PbSession) (b : Bool) :
    (p.setMuted b).options.volume = p.options.volume := rfl

@[simp] theorem PbSession.rate_setMuted (p : PbSession) (b : Bool) :
    (p.setMuted b).options.playbackRate = p.options.playbackRate := rfl

/-! ## C6 -/

/-- C6: writing a playback position always clamps to [0, durationMillis]:
`setPosition(p)` stores `max(0, min(p, durationMillis))` for every session and
every rational argument, and on a session with duration 10000 the arguments
-5, 15000 and 3000 store 0, 10000 and 3000 respectively. -/
theorem c6_setPosition_clamps :
    (∀ (s : PbSession) (p : ℚ),
        (s.setPosition p).position = max 0 (min p s.duration)) ∧
    (demoPb10k.setPosition (-5)).position = 0 ∧
    (demoPb10k.setPosition 15000).position = 10000 ∧
    (demoPb10k.setPosition 3000).position = 3000 := by
  refine ⟨fun s p => rfl, by decide, by decide, by decide⟩

/-! ## C7 -/

/-- C7: for every playback session with `0 ≤ position ≤ duration`, the derived
`progress` is 0 when the duration is 0 and `position / duration` otherwise. -/
theorem c7_progress (s : PbSession) (_hpos : 0 ≤ s.position)
    (_hle : s.position ≤ s.duration) :
    (s.duration = 0 → s.progress = 0) ∧
    (s.duration ≠ 0 → s.progress = s.position / s.duration) := by
  unfold PbSession.progress
  constructor
  · intro h; simp [h]
  · intro h; simp [h]

/-- Witness for C7 on a concrete session (duration 10, position 5). -/
theorem c7_progress_witness : demoPbHalf.progress = 5 / 10 :=
  (c7_progress demoPbHalf (by decide) (by decide)).2 (by decide)

/-! ## C8 -/

/-- C8: the passive static queries return safe defaults instead of raising
when the native call rejects: `getStatus` returns null and
`getPermissionStatus` returns 'denied'.  (Both are total functions of the
native outcome: no error escapes to the caller.) -/
theorem c8_passive_queries_safe :
    (∀ (sound : Option Nat) (e : String),
        staticGetStatus sound (.error e) = none) ∧
    (∀ e : String, staticGetPermissionStatus (.error e) = .denied) := by
  constructor
  · intro sound e; cases sound <;> rfl
  · intro e; rfl

/-! ## C10 -/

/-- C10: `toResult()` and `toMetadata()` throw 'No recording URI available'
exactly when the session uri is null; with a non-null uri, `toResult` returns
`{uri, duration, status = state}` and `toMetadata` the `{uri, duration,
format}` record.  (Both are read-only: in the embedding they are functions of
the session returning only a result.) -/
theorem c10_toResult_toMetadata (r : RecSession) :
    (r.uri = none →
        r.toResult = .error "No recording URI available" ∧
        r.toMetadata = .error "No recording URI available") ∧
    (∀ u, r.uri = some u →
        r.toResult = .ok ⟨u, r.duration, r.state⟩ ∧
        r.toMetadata = .ok ⟨u, r.duration, r.config.format⟩) := by
  unfold RecSession.toResult RecSession.toMetadata
  constructor
  · intro h; rw [h]; exact ⟨rfl, rfl⟩
  · intro u h; rw [h]; exact ⟨rfl, rfl⟩

/-- Witness for C10 on a concrete stopped session with a uri. -/
theorem c10_witness :
    demoStoppedRec.toResult = .ok ⟨"file:///rec.m4a", 125, .stopped⟩ :=
  ((c10_toResult_toMetadata demoStoppedRec).2 "file:///rec.m4a" rfl).1

/-! ## C9 -/

/-- C9: `formatDuration 125000 = "02:05"` and
`formatDurationLong 3725000 = "01:02:05"`; in general `formatDuration` renders
`floor(ms/1000)` as zero-padded minutes (`floor(ms/60000)`) and seconds
(`floor(ms/1000) mod 60`), and `formatDurationLong` renders `HH:MM:SS`
exactly when the duration is at least one hour (3600000 ms) and agrees with
`formatDuration` otherwise. -/
theorem c9_formatters :
    formatDuration 125000 = "02:05" ∧
    formatDurationLong 3725000 = "01:02:05" ∧
    (∀ ms : Nat, formatDuration ms =
        padStart2 (toString (ms / 60000)) ++ ":" ++
        padStart2 (toString (ms / 1000 % 60))) ∧
    (∀ ms : Nat, 3600000 ≤ ms →
        formatDurationLong ms =
          padStart2 (toString (ms / 3600000)) ++ ":" ++
          padStart2 (toString (ms / 1000 % 3600 / 60)) ++ ":" ++
          padStart2 (toString (ms / 1000 % 60))) ∧
    (∀ ms : Nat, ms < 3600000 → formatDurationLong ms = formatDuration ms) := by
  refine ⟨by decide, by decide, ?_, ?_, ?_⟩
  · intro ms
    simp only [formatDuration, Nat.div_div_eq_div_mul]
  · intro ms h
    have hpos : 0 < ms / 1000 / 3600 := by omega
    simp only [formatDurationLong, Nat.div_div_eq_div_mul] at hpos ⊢
    rw [if_pos hpos]
  · intro ms h
    have hz : ms / 1000 / 3600 = 0 := by omega
    have hm : ms / 1000 % 3600 = ms / 1000 := Nat.mod_eq_of_lt (by omega)
    simp only [formatDurationLong, formatDuration, hm]
    rw [if_neg (by omega)]

/-- Witness for C9: the hour-threshold branch applied at 3725000 ms. -/
theorem c9_witness :
    formatDurationLong 3725000 =
      padStart2 (toString (3725000 / 3600000)) ++ ":" ++
      padStart2 (toString (3725000 / 1000 % 3600 / 60)) ++ ":" ++
      padStart2 (toString (3725000 / 1000 % 60)) :=
  c9_formatters.2.2.2.1 3725000 (by norm_num)

/-! ## C4 -/

/-- C4: on a poll tick whose native status is loaded and reports
`didJustFinish = true`, with the session option `isLooping` off the state
moves to Completed and the poll loop stops; with `isLooping` on the state is
unchanged and the loop keeps running. -/
theorem c4_completion (c : PbCoordinator) (h : Nat) (st : SoundStatus)
    (hs : c.soundId = some h) (hp : c.polling = true)
    (hl : st.isLoaded = true) (hf : st.didJustFinish = true) :
    (c.session.options.isLooping = false →
        (pbPollTick c (some st)).session.state = .completed ∧
        (pbPollTick c (some st)).polling = false) ∧
    (c.session.options.isLooping = true →
        (pbPollTick c (some st)).session.state = c.session.state ∧
        (pbPollTick c (some st)).polling = true) := by
  unfold pbPollTick
  rw [hp, hs]
  constructor
  · intro hloop
    simp [hl, hf, hloop, PbSession.isLooping, PbSession.setStatus,
          PbSession.setDuration, PbSession.setPosition, PbSession.setState]
  · intro hloop
    simp [hl, hf, hloop, PbSession.isLooping, PbSession.setStatus,
          PbSession.setDuration, PbSession.setPosition]

/-- Witness for C4: a finished status on a concrete non-looping coordinator. -/
theorem c4_completion_witness :
    (pbPollTick pbHeld (some demoFinishedStatus)).session.state = .completed ∧
    (pbPollTick pbHeld (some demoFinishedStatus)).polling = false :=
  (c4_completion pbHeld 0 demoFinishedStatus rfl rfl rfl rfl).1 rfl

/-! ## C1 -/

/-- C1 (counterexample to the claim as stated): on a session in state Idle
with a prepared handle, `pause()` throws but does NOT leave the state
unchanged — the guard failure is caught by the same `catch` as a native
failure, so `setError` forces the state to Error. -/
theorem c1_counterexample :
    (recPause recIdleHeld true).2.1 = .error "Cannot pause recording" ∧
    (recPause recIdleHeld true).1.session.state = .error ∧
    recIdleHeld.session.state = .idle ∧
    (recPause recIdleHeld true).1.session.state ≠ recIdleHeld.session.state := by
  refine ⟨rfl, rfl, rfl, by decide⟩

/-- C1 (amended): `pause()` succeeds only when a handle is held and the state
is Recording; calling it in any other state (or without a handle) throws and
forces the session state to Error — the same Error outcome as a native pause
failure, not an unchanged state. -/
theorem c1_pause_amended (c : RecCoordinator) (ok : Bool) :
    ((recPause c ok).2.1 = .ok () →
        c.instanceId ≠ none ∧ c.session.state = .recording ∧ ok = true ∧
        (recPause c ok).1.session.state = .paused) ∧
    ((c.instanceId = none ∨ c.session.state ≠ .recording) →
        (recPause c ok).2.1 = .error "Cannot pause recording" ∧
        (recPause c ok).1.session.state = .error) ∧
    (c.instanceId ≠ none → c.session.state = .recording → ok = false →
        (recPause c ok).2.1 = .error "Failed to pause recording" ∧
        (recPause c ok).1.session.state = .error) := by
  refine ⟨?_, ?_, ?_⟩
  · intro hok
    by_cases hI : c.instanceId = none
    · simp [recPause, hI] at hok
    · rcases Option.ne_none_iff_exists'.mp hI with ⟨v, hv⟩
      by_cases hR : c.session.state = .recording
      · cases hok' : ok with
        | false =>
            rw [hok'] at hok
            simp [recPause, hv, RecSession.canPause, hR] at hok
        | true =>
            refine ⟨hI, hR, rfl, ?_⟩
            simp [recPause, hv, RecSession.canPause, hR, RecSession.setState]
      · simp [recPause, hv, RecSession.canPause, hR] at hok
  · intro hbad
    rcases hbad with h1 | h2
    · simp [recPause, h1, RecSession.setError]
    · by_cases hI : c.instanceId = none
      · simp [recPause, hI, RecSession.setError]
      · rcases Option.ne_none_iff_exists'.mp hI with ⟨v, hv⟩
        simp [recPause, hv, RecSession.canPause, h2, RecSession.setError]
  · intro h1 h2 h3
    rcases Option.ne_none_iff_exists'.mp h1 with ⟨v, hv⟩
    simp [recPause, hv, RecSession.canPause, h2, h3, RecSession.setState,
      RecSession.setError]

/-- Witness for C1 (amended): guard-failure branch on the concrete Idle
coordinator. -/
theorem c1_pause_amended_witness :
    (recPause recIdleHeld false).2.1 = .error "Cannot pause recording" ∧
    (recPause recIdleHeld false).1.session.state = .error :=
  (c1_pause_amended recIdleHeld false).2.1 (Or.inr (by decide))

/-! ## C3 -/

/-- C3 (counterexample to the claim as stated): the recording coordinator's
`prepare()`, invoked while handle 0 is already held, creates a fresh native
recorder (handle 1) without ever invoking the teardown primitive on handle 0 —
it merely overwrites the reference, so the "tear down the prior handle first"
guarantee fails for the recording half of the claim. -/
theorem c3_counterexample :
    recIdleHeld.instanceId = some 0 ∧
    (recPrepare recIdleHeld true).2.2 = [NativeEvent.createRec 1] ∧
    NativeEvent.teardownRec 0 ∉ (recPrepare recIdleHeld true).2.2 ∧
    (recPrepare recIdleHeld true).1.instanceId = some 1 := by
  refine ⟨rfl, rfl, by decide, rfl⟩

/-- C3 (amended): the playback coordinator's `load()` with a handle already
held does first tear that handle down (its first native lifecycle event is the
prior handle's teardown, before any creation); the recording coordinator's
`prepare()` never invokes a teardown — it overwrites the held reference with a
newly created recorder. -/
theorem c3_amended :
    (∀ (c : PbCoordinator) (uri : String) (uOk cOk : Bool)
        (st : Option SoundStatus) (h : Nat), c.soundId = some h →
        ∃ rest, (pbLoad c uri uOk cOk st).2.2 = NativeEvent.teardownSound h :: rest) ∧
    (∀ (c : RecCoordinator) (ok : Bool) (h : Nat),
        NativeEvent.teardownRec h ∉ (recPrepare c ok).2.2) := by
  constructor
  · intro c uri uOk cOk st h hs
    cases uOk with
    | false =>
        refine ⟨[], ?_⟩
        simp [pbLoad, pbUnload, hs]
    | true =>
        cases cOk with
        | false =>
            refine ⟨[], ?_⟩
            simp [pbLoad, pbUnload, hs]
        | true =>
            cases st with
            | none =>
                refine ⟨[.createSound c.nextId], ?_⟩
                simp [pbLoad, pbUnload, hs]
            | some s =>
                refine ⟨[.createSound c.nextId], ?_⟩
                simp [pbLoad, pbUnload, hs]
  · intro c ok h
    cases ok <;> simp [recPrepare]

/-- Witness for C3 (amended): `load()` on the concrete held coordinator begins
with the teardown of handle 0. -/
theorem c3_amended_witness :
    ∃ rest, (pbLoad pbHeld "file:///b.mp3" true true none).2.2 =
      NativeEvent.teardownSound 0 :: rest :=
  c3_amended.1 pbHeld "file:///b.mp3" true true none 0 rfl

/-! ## C5 -/

/-- C5 (counterexample to the claim as stated): after a successful `load`
followed by `setVolume(2)`, the session stores `options.volume = 2`, outside
the documented [0,1] range — the entity setter mirrors the argument without
clamping. -/
theorem c5_counterexample :
    (pbRun (pbInit defaultPbOptions) c5ops).session.options.volume = 2 ∧
    ¬ (pbRun (pbInit defaultPbOptions) c5ops).session.options.volume ≤ 1 := by
  refine ⟨by decide, by decide⟩

/-- Each playback-coordinator step keeps `options.volume`/`options.playbackRate`
inside their documented ranges provided the arguments handed to
`setVolume`/`setPlaybackRate` are themselves in range. -/
theorem pbStep_optionsInRange (c : PbCoordinator) (op : PbOp)
    (hop : op.argsOk) (h : optionsInRange c.session.options) :
    optionsInRange (pbStep c op).session.options := by
  cases op with
  | load uri uOk cOk st =>
      simp only [pbStep, pbLoad, pbUnload]
      cases hS : c.soundId with
      | none =>
          cases cOk with
          | true =>
              cases st with
              | none => simpa using h
              | some s =>
                  cases hL : s.isLoaded <;> simpa [hL] using h
          | false => simpa using h
      | some v =>
          cases uOk with
          | false => simpa using h
          | true =>
              cases cOk with
              | true =>
                  cases st with
                  | none => simpa using h
                  | some s =>
                      cases hL : s.isLoaded <;> simpa [hL] using h
              | false => simpa using h
  | play ok =>
      simp only [pbStep, pbPlay]
      split <;> [simpa using h; (cases ok <;> simpa using h)]
  | pause ok =>
      simp only [pbStep, pbPause]
      split <;> [simpa using h; (cases ok <;> simpa using h)]
  | stop ok =>
      simp only [pbStep, pbStop]
      split <;> [simpa using h; (cases ok <;> simpa using h)]
  | seek pos ok =>
      simp only [pbStep, pbSeek]
      split
      · simpa using h
      · split <;> simpa using h
  | setVolume v ok =>
      obtain ⟨hv0, hv1⟩ := hop
      simp only [pbStep, pbSetVolume]
      split
      · simpa using h
      · split
        · obtain ⟨-, -, hr⟩ := h
          exact ⟨by simpa using hv0, by simpa using hv1, by simpa using hr⟩
        · simpa using h
  | setRate r pitch ok =>
      obtain ⟨hr0, hr1⟩ := hop
      simp only [pbStep, pbSetRate]
      split
      · simpa using h
      · split
        · obtain ⟨h0, h1, -⟩ := h
          exact ⟨by simpa using h0, by simpa using h1, by simpa using hr0,
            by simpa using hr1⟩
        · simpa using h
  | setLooping b ok =>
      simp only [pbStep, pbSetLooping]
      split
      · simpa using h
      · split <;> simpa using h
  | setMuted b ok =>
      simp only [pbStep, pbSetMuted]
      split
      · simpa using h
      · split <;> simpa using h
  | unload ok =>
      simp only [pbStep, pbUnload]
      cases hS : c.soundId with
      | none => simpa using h
      | some v => cases ok <;> simpa using h
  | dispose => simpa [pbStep, pbDispose] using h
  | pollTick st =>
      simp only [pbStep, pbPollTick]
      cases hP : c.polling with
      | false => simpa using h
      | true =>
          cases hS : c.soundId with
          | none => simpa using h
          | some v =>
              cases st with
              | none => simpa using h
              | some s =>
                  cases hL : s.isLoaded with
                  | false => simpa [hL] using h
                  | true =>
                      cases hF : s.didJustFinish <;>
                        cases hLp : c.session.options.isLooping <;>
                        simpa [hL, hF, hLp, PbSession.isLooping] using h

/-- C5 (amended): starting from options within the documented ranges (the
defaults qualify), any sequence of playback-coordinator operations in which
every `setVolume` argument lies in [0,1] and every `setPlaybackRate` argument
lies in [0.5,2.0] keeps `options.volume` in [0,1] and `options.playbackRate`
in [0.5,2.0].  (Without that restriction the claim fails: the setters store
their argument unclamped.) -/
theorem c5_amended (opts : PbOptions) (hopts : optionsInRange opts)
    (ops : List PbOp) (hops : ∀ op ∈ ops, op.argsOk) :
    optionsInRange (pbRun (pbInit opts) ops).session.options := by
  suffices main : ∀ (l : List PbOp) (c : PbCoordinator), (∀ op ∈ l, op.argsOk) →
      optionsInRange c.session.options →
      optionsInRange (l.foldl pbStep c).session.options by
    exact main ops (pbInit opts) hops hopts
  intro l
  induction l with
  | nil => intro c _ hc; exact hc
  | cons op rest ih =>
      intro c hl hc
      exact ih (pbStep c op) (fun o ho => hl o (List.mem_cons_of_mem op ho))
        (pbStep_optionsInRange c op (hl op (List.mem_cons_self op rest)) hc)

/-- Witness for C5 (amended): an in-range `setVolume(1/2)` after a load keeps
the options in range. -/
theorem c5_amended_witness :
    optionsInRange (pbRun (pbInit defaultPbOptions)
      [.load "file:///a.mp3" true true (some demoLoadedStatus),
       .setVolume (1/2) true]).session.options :=
  c5_amended defaultPbOptions (by norm_num [optionsInRange, defaultPbOptions])
    [.load "file:///a.mp3" true true (some demoLoadedStatus),
     .setVolume (1/2) true]
    (by intro op ho
        fin_cases ho <;> norm_num [PbOp.argsOk])

/-! ## C2 -/

@[simp] theorem RecSession.state_setState (r : RecSession) (s : RecState) :
    (r.setState s).state = s := rfl

@[simp] theorem RecSession.uri_setState (r : RecSession) (s : RecState) :
    (r.setState s).uri = r.uri := rfl

@[simp] theorem RecSession.state_setDuration (r : RecSession) (d : ℚ) :
    (r.setDuration d).state = r.state := rfl

@[simp] theorem RecSession.uri_setDuration (r : RecSession) (d : ℚ) :
    (r.setDuration d).uri = r.uri := rfl

@[simp] theorem RecSession.state_setStatus (r : RecSession) (s : RecStatus) :
    (r.setStatus s).state = r.state := rfl

@[simp] theorem RecSession.uri_setStatus (r : RecSession) (s : RecStatus) :
    (r.setStatus s).uri = r.uri := rfl

@[simp] theorem RecSession.state_setError (r : RecSession) (e : String) :
    (r.setError e).state = .error := rfl

@[simp] theorem RecSession.uri_setError (r : RecSession) (e : String) :
    (r.setError e).uri = r.uri := rfl

@[simp] theorem RecSession.state_setUri (r : RecSession) (u : String) :
    (r.setUri u).state = r.state := rfl

@[simp] theorem RecSession.uri_setUri (r : RecSession) (u : String) :
    (r.setUri u).uri = some u := rfl

@[simp] theorem RecSession.state_reset (r : RecSession) :
    r.reset.state = .idle := rfl

@[simp] theorem RecSession.uri_reset (r : RecSession) :
    r.reset.uri = none := rfl

/-- Every coordinator operation preserves the C2 inductive invariant. -/
theorem recStep_inv (c : RecCoordinator) (op : RecOp) (h : c.inv) :
    (recStep c op).inv := by
  cases op with
  | prepare ok =>
      rcases h with hE | ⟨hu, hs⟩
      · cases ok <;> simp [recStep, recPrepare, RecCoordinator.inv, hE]
      · cases ok <;> simp [recStep, recPrepare, RecCoordinator.inv, hu]
  | start ok u d =>
      cases hI : c.instanceId with
      | none =>
          rcases h with hE | ⟨hu, hs⟩
          · simp [recStep, recStart, RecCoordinator.inv, hI, hE]
          · simp [recStep, recStart, RecCoordinator.inv, hI, hu]
      | some v =>
          cases ok <;> simp [recStep, recStart, RecCoordinator.inv, hI]
  | pause ok =>
      by_cases hg : (c.instanceId.isNone || !c.session.canPause) = true
      · rcases h with hE | ⟨hu, hs⟩
        · simp [recStep, recPause, RecCoordinator.inv, hg, hE]
        · simp [recStep, recPause, RecCoordinator.inv, hg, hu]
      · have hrec : c.session.state = .recording := by
          by_contra hcon
          simp [RecSession.canPause, hcon] at hg
        have hE : c.everRec = true := by
          rcases h with hE | ⟨hu, hs⟩
          · exact hE
          · rcases hs with h1 | h1 | h1 <;> rw [hrec] at h1 <;> cases h1
        cases ok <;>
          simp [recStep, recPause, RecCoordinator.inv, hg, hE]
  | stop ok u d =>
      cases hI : c.instanceId with
      | none =>
          rcases h with hE | ⟨hu, hs⟩
          · simp [recStep, recStop, RecCoordinator.inv, hI, hE]
          · simp [recStep, recStop, RecCoordinator.inv, hI, hu]
      | some v =>
          by_cases hg : (!c.session.canStop) = true
          · rcases h with hE | ⟨hu, hs⟩
            · simp [recStep, recStop, RecCoordinator.inv, hI, hg, hE]
            · simp [recStep, recStop, RecCoordinator.inv, hI, hg, hu]
          · have hrp : c.session.state = .recording ∨ c.session.state = .paused := by
              by_contra hcon
              push_neg at hcon
              simp [RecSession.canStop, hcon.1, hcon.2] at hg
            have hE : c.everRec = true := by
              rcases h with hE | ⟨hu, hs⟩
              · exact hE
              · exfalso
                rcases hrp with h1 | h1 <;> rcases hs with h2 | h2 | h2 <;>
                  rw [h1] at h2 <;> cases h2
            cases ok <;> cases u <;>
              simp [recStep, recStop, RecCoordinator.inv, hI, hg, hE]
  | cancel ok =>
      cases hI : c.instanceId with
      | none => simp [recStep, recCancel, RecCoordinator.inv, hI]
      | some v =>
          cases ok with
          | true => simp [recStep, recCancel, RecCoordinator.inv, hI]
          | false =>
              rcases h with hE | ⟨hu, hs⟩
              · simp [recStep, recCancel, RecCoordinator.inv, hI, hE]
              · simp [recStep, recCancel, RecCoordinator.inv, hI, hu]
  | dispose => simp [recStep, recDispose, RecCoordinator.inv]
  | pollTick ok d isRec =>
      by_cases hp : c.polling = true
      · cases hI : c.instanceId with
        | none =>
            rcases h with hE | ⟨hu, hs⟩
            · simp [recStep, recPollTick, RecCoordinator.inv, hp, hI, hE]
            · simp [recStep, recPollTick, RecCoordinator.inv, hp, hI, hu, hs]
        | some v =>
            cases ok with
            | true =>
                rcases h with hE | ⟨hu, hs⟩
                · simp [recStep, recPollTick, RecCoordinator.inv, hp, hI, hE]
                · simp [recStep, recPollTick, RecCoordinator.inv, hp, hI, hu, hs]
            | false =>
                rcases h with hE | ⟨hu, hs⟩
                · simp [recStep, recPollTick, RecCoordinator.inv, hp, hI, hE]
                · simp [recStep, recPollTick, RecCoordinator.inv, hp, hI, hu, hs]
      · have hp2 : c.polling = false := by simpa using hp
        rcases h with hE | ⟨hu, hs⟩
        · simp [recStep, recPollTick, RecCoordinator.inv, hp2, hE]
        · simp [recStep, recPollTick, RecCoordinator.inv, hp2, hu, hs]

/-- The C2 invariant holds along every run from a fresh coordinator. -/
theorem recRun_inv (ops : List RecOp) (c : RecCoordinator) (h : c.inv) :
    (recRun c ops).inv := by
  induction ops generalizing c with
  | nil => exact h
  | cons op rest ih =>
      simpa [recRun] using ih (recStep c op) (recStep_inv c op h)

/-- C2 (counterexample to the claim as stated): prepare, start (uri
reported), then a native pause failure — reachable by coordinator operations
from the initial Idle session — leaves the session with a non-null uri in
state Error, which is not among {Recording, Paused, Stopping, Stopped}. -/
theorem c2_counterexample :
    (recRun (recInit demoCfg) c2ops).session.uri = some "file:///rec.m4a" ∧
    (recRun (recInit demoCfg) c2ops).session.state = .error ∧
    ¬ ((recRun (recInit demoCfg) c2ops).session.state = .recording ∨
       (recRun (recInit demoCfg) c2ops).session.state = .paused ∨
       (recRun (recInit demoCfg) c2ops).session.state = .stopping ∨
       (recRun (recInit demoCfg) c2ops).session.state = .stopped) := by
  refine ⟨rfl, rfl, by decide⟩

/-- C2 (amended): in every reachable state of the recording coordinator, the
session uri is non-null only if the session has been through state Recording
since its last reset (creation, cancel or dispose) — tracked by the history
flag `everRec`.  The original membership invariant fails because the error
path (state Error) and a re-prepare (states Preparing/Idle) can retain a
non-null uri. -/
theorem c2_amended (cfg : RecConfig) (ops : List RecOp)
    (h : (recRun (recInit cfg) ops).session.uri ≠ none) :
    (recRun (recInit cfg) ops).everRec = true := by
  have hinv : (recRun (recInit cfg) ops).inv :=
    recRun_inv ops (recInit cfg)
      (Or.inr ⟨rfl, Or.inl rfl⟩)
  rcases hinv with hE | ⟨hu, -⟩
  · exact hE
  · exact absurd hu h

/-- Witness for C2 (amended): after prepare + start with a reported uri, the
uri is non-null and the session has indeed been through Recording. -/
theorem c2_amended_witness :
    (recRun (recInit demoCfg) c2okOps).everRec = true :=
  c2_amended demoCfg c2okOps (by decide)

end RNAudio
